import Mathlib

/-!
Shallow embedding of two NeMo source files:

* nemo/collections/llm/gpt/model/hf_auto_model_for_causal_lm.py
* nemo/export/utils/utils.py

Python dicts become association lists kept in insertion order, tensors become
lists of rationals (floating point is modelled as exact arithmetic), calls
into external libraries (the torch cross entropy kernel, the AutoTokenizer
constructor, the model forward pass) become explicit function parameters, and
Python exceptions become Except.
-/

/-- Python runtime errors raised by the embedded code. -/
inductive PyError where
  | keyError (k : String)
  | typeError (msg : String)
  | assertionError
  deriving DecidableEq

/-- A Python dict from field names to tensors, in insertion order.  The dicts
built by the embedded code always have pairwise distinct keys. -/
abbrev Batch (V : Type) := List (String × V)

/-- Python dict lookup b[k]: the value of the first entry named k. -/
def dlookup {V : Type} : Batch V → String → Option V
  | [], _ => none
  | kv :: rest, k => if kv.1 = k then some kv.2 else dlookup rest k

/-- Python membership test k in b. -/
def dcontains {V : Type} (b : Batch V) (k : String) : Bool :=
  (dlookup b k).isSome

/-- Python dict assignment b[k] = v: overwrite in place when the key exists,
keeping its position, otherwise append a new entry at the end. -/
def dinsert {V : Type} (b : Batch V) (k : String) (v : V) : Batch V :=
  if dcontains b k then b.map (fun kv => if kv.1 = k then (k, v) else kv)
  else b ++ [(k, v)]

/-- Python b.pop(k): the value at k together with the dict with k removed, or
none when the key is missing (pop with a default argument). -/
def dpop {V : Type} (b : Batch V) (k : String) : Option (V × Batch V) :=
  match dlookup b k with
  | some v => some (v, b.filter (fun kv => kv.1 != k))
  | none => none

/-- Decidable equality for Except results, used to evaluate the embedded
functions on concrete inputs. -/
instance instDecEqExcept {E A : Type} [DecidableEq E] [DecidableEq A] :
    DecidableEq (Except E A) := fun x y =>
  match x, y with
  | .ok a, .ok b =>
    decidable_of_iff (a = b) ⟨fun h => by rw [h], fun h => by injection h⟩
  | .error a, .error b =>
    decidable_of_iff (a = b) ⟨fun h => by rw [h], fun h => by injection h⟩
  | .ok _, .error _ => isFalse (fun h => by injection h)
  | .error _, .ok _ => isFalse (fun h => by injection h)

/-- Arithmetic mean of a 1-D float tensor, torch.mean, over exact rationals. -/
def torchMean (l : List ℚ) : ℚ := l.sum / l.length

/-- masked_cross_entropy (hf_auto_model_for_causal_lm.py, lines 28-33).  The
external kernel F.cross_entropy(logits, targets, reduction=none) enters as the
parameter ceNone, giving the vector of per-example cross entropies; with its
default mean reduction, F.cross_entropy(logits, targets) is the mean of that
vector.  The mask is already flat, so mask.view(-1) is the identity. -/
def masked_cross_entropy (ceNone : List (List ℚ) → List ℤ → List ℚ)
    (logits : List (List ℚ)) (targets : List ℤ) (mask : Option (List ℚ)) : ℚ :=
  match mask with
  | some m => torchMean (List.zipWith (· * ·) (ceNone logits targets) m)
  | none => torchMean (ceNone logits targets)

/-- A PyTorch Lightning precision identifier: Union[int, str]. -/
inductive Precision where
  | pInt (n : ℤ)
  | pStr (s : String)
  deriving DecidableEq

/-- The torch dtypes the precision mapper can return. -/
inductive TorchDtype where
  | bfloat16
  | float16
  | float32
  deriving DecidableEq

/-- The f-string rendering of a precision inside the ValueError message. -/
def precisionRepr : Precision → String
  | .pInt n => toString n
  | .pStr s => s

/-- torch_dtype_from_precision (nemo/export/utils/utils.py, lines 35-56).  The
ValueError becomes the error branch; its message names the offending precision
(the quotation marks of the original message are left out). -/
def torch_dtype_from_precision (precision : Precision) (megatron_amp_O2 : Bool) :
    Except String TorchDtype :=
  if megatron_amp_O2 = false then .ok .float32
  else if precision ∈ [Precision.pStr "bf16", Precision.pStr "bf16-mixed"] then
    .ok .bfloat16
  else if precision ∈ [Precision.pInt 16, Precision.pStr "16", Precision.pStr "16-mixed"] then
    .ok .float16
  else if precision ∈ [Precision.pInt 32, Precision.pStr "32", Precision.pStr "32-true"] then
    .ok .float32
  else
    .error ("Could not parse the precision of " ++ precisionRepr precision ++
      " to a valid torch.dtype")

/-- Kind of a filesystem entry. -/
inductive FileType where
  | directory
  | regular
  deriving DecidableEq

/-- Filesystem model: a finite map from paths, given as component lists, to
entry kinds. -/
abbrev FileSystem := List (List String × FileType)

/-- Entry stored at a path, if any. -/
def fsLookup : FileSystem → List String → Option FileType
  | [], _ => none
  | e :: rest, p => if e.1 = p then some e.2 else fsLookup rest p

/-- os.stat as used by pathlib: the entry at the path, or FileNotFoundError
when the path does not exist. -/
def pathStat (fs : FileSystem) (p : List String) : Except String FileType :=
  match fsLookup fs p with
  | some t => .ok t
  | none => .error "FileNotFoundError"

/-- pathlib Path.is_dir: true when stat reports a directory; an OSError from
stat, such as a missing entry, is caught and yields false. -/
def path_is_dir (fs : FileSystem) (p : List String) : Bool :=
  match pathStat fs p with
  | .ok FileType.directory => true
  | _ => false

/-- is_nemo2_checkpoint (nemo/export/utils/utils.py, lines 21-31):
(Path(checkpoint_path) / context).is_dir(). -/
def is_nemo2_checkpoint (fs : FileSystem) (checkpoint_path : List String) : Bool :=
  path_is_dir fs (checkpoint_path ++ ["context"])

/-- The tokenizer-related state of an HFAutoModelForCausalLM instance. -/
structure AdapterTokState (Tok : Type) where
  _tokenizer : Option Tok
  trust_remote_code : Bool
  model_name : String
  deriving DecidableEq

/-- configure_tokenizer (hf_auto_model_for_causal_lm.py, lines 88-93).  The
external AutoTokenizer constructor enters as the parameter attempt, taking
model_name, use_fast and trust_remote_code; a first failure is swallowed by
the bare except clause and retried once with use_fast inverted, and a failure
of the retry propagates. -/
def configure_tokenizer {E Tok : Type}
    (attempt : String → Bool → Bool → Except E Tok)
    (model_name : String) (use_fast : Bool) (trust_remote_code : Bool) :
    Except E Tok :=
  match attempt model_name use_fast trust_remote_code with
  | .ok t => .ok t
  | .error _ => attempt model_name (!use_fast) trust_remote_code

/-- The tokenizer property getter (hf_auto_model_for_causal_lm.py, lines
77-81).  When nothing is cached it evaluates
configure_tokenizer(self.model_name, self.trust_remote_code), which binds
self.trust_remote_code positionally to the use_fast parameter and leaves the
trust_remote_code parameter at its default false; the result is cached in
_tokenizer. -/
def tokenizer_get {E Tok : Type}
    (attempt : String → Bool → Bool → Except E Tok)
    (st : AdapterTokState Tok) : Except E (Tok × AdapterTokState Tok) :=
  match st._tokenizer with
  | some t => .ok (t, st)
  | none =>
    match configure_tokenizer attempt st.model_name st.trust_remote_code false with
    | .ok t => .ok (t, { st with _tokenizer := some t })
    | .error e => .error e

/-- The tokenizer property setter (hf_auto_model_for_causal_lm.py, lines
83-86): assert that _tokenizer is None, then store the value. -/
def tokenizer_set {Tok : Type} (st : AdapterTokState Tok) (value : Tok) :
    Except String (AdapterTokState Tok) :=
  match st._tokenizer with
  | some _ => .error "AssertionError"
  | none => .ok { st with _tokenizer := some value }

/-- AutoTokenizer stub recording the use_fast and trust_remote_code flags it
is called with; every construction attempt succeeds. -/
def attemptFlags : String → Bool → Bool → Except Unit (Bool × Bool) :=
  fun _ use_fast trust_remote_code => .ok (use_fast, trust_remote_code)

/-- The GPTSFTDataset compatibility shim (hf_auto_model_for_causal_lm.py,
lines 136-138 and 159-161): if the batch has a tokens field and no input_ids
field, alias tokens into input_ids. -/
def aliasTokens {V : Type} (b : Batch V) : Batch V :=
  match dlookup b "input_ids", dlookup b "tokens" with
  | none, some t => dinsert b "input_ids" t
  | _, _ => b

/-- Body of the dict comprehension in _remove_extra_batch_keys: keep key k
when it occurs in the batch. -/
def keepStep {V : Type} (b : Batch V) (acc : Batch V) (k : String) : Batch V :=
  match dlookup b k with
  | some v => dinsert acc k v
  | none => acc

/-- _remove_extra_batch_keys (hf_auto_model_for_causal_lm.py, lines 204-217):
the allowed keys are the parameters of the model forward signature plus the
default reserved keys, and the comprehension keeps exactly the allowed keys
present in the batch. -/
def _remove_extra_batch_keys {V : Type} (fwdParams : List String) (b : Batch V) : Batch V :=
  (fwdParams ++ ["labels", "loss_mask"]).foldl (keepStep b) []

/-- The batch shaping both steps perform before the forward call: the tokens
shim followed by _remove_extra_batch_keys (source lines 136-139, 159-162). -/
def stepBatchShaping {V : Type} (fwdParams : List String) (b : Batch V) : Batch V :=
  _remove_extra_batch_keys fwdParams (aliasTokens b)

/-- Step outcome: the metrics recorded through self.log, and the value the
step returns (none models the Python step returning None). -/
structure StepResult where
  logs : List (String × ℚ)
  ret : Option ℚ
  deriving DecidableEq

/-- The externally supplied model: the parameter names of its forward
signature, and the logits tensor of shape [B, T, C] that
self.model(**batch).logits.float() produces on a batch. -/
structure ModelStub (V : Type) where
  fwdParams : List String
  logits : Batch V → List (List (List ℚ))

/-- training_step (hf_auto_model_for_causal_lm.py, lines 132-152).  External
tensor operations enter as parameters: labelsView is labels.view(-1) on the
popped labels tensor, m.logits is the forward output and List.flatten on it is
.view(-1, n_cls); .to(self.model.device) and .float() are the identity.  The
injected loss function receives the flat logits, the flat labels and the raw
popped loss_mask tensor, exactly as self.loss_fn does. -/
def training_step {V : Type} (m : ModelStub V) (labelsView : V → List ℤ)
    (lossFn : List (List ℚ) → List ℤ → Option V → ℚ)
    (batch : Batch V) : Except PyError StepResult :=
  match dpop batch "labels" with
  | none => .error (.keyError "labels")
  | some (labelsT, b1) =>
    let lm := dpop b1 "loss_mask"
    let lossMask : Option V := lm.map (fun x => x.1)
    let b2 : Batch V := match lm with | some x => x.2 | none => b1
    let b4 := stepBatchShaping m.fwdParams b2
    let logits := (m.logits b4).flatten
    let labels := labelsView labelsT
    if logits.length = labels.length then
      let loss := lossFn logits labels lossMask
      .ok { logs := [("train_loss", loss)], ret := some loss }
    else .error .assertionError

/-- The keyword-argument call self.forward(**batch) that validation_step
performs (line 164).  The parameter list of forward is [batch], so Python
raises a TypeError for any keyword other than batch; when only the batch
keyword is passed, the bound value is a tensor and the body model(**batch)
fails to unpack it; with no keywords the required positional argument is
missing. -/
def forward_kwargs {V : Type} (kwargs : Batch V) : Except PyError (List (List (List ℚ))) :=
  match kwargs.find? (fun kv => kv.1 != "batch") with
  | some kv => .error (.typeError ("forward() got an unexpected keyword argument " ++ kv.1))
  | none =>
    match dlookup kwargs "batch" with
    | some _ => .error (.typeError "argument after ** must be a mapping")
    | none => .error (.typeError "forward() missing 1 required positional argument: batch")

/-- validation_step (hf_auto_model_for_causal_lm.py, lines 154-173).  It
mirrors training_step except that the forward call is self.forward(**batch)
rather than self.forward(batch), the metric is logged as val_loss and nothing
is returned; the torch.no_grad decorator is not modelled. -/
def validation_step {V : Type} (m : ModelStub V) (labelsView : V → List ℤ)
    (lossFn : List (List ℚ) → List ℤ → Option V → ℚ)
    (batch : Batch V) : Except PyError StepResult :=
  match dpop batch "labels" with
  | none => .error (.keyError "labels")
  | some (labelsT, b1) =>
    let lm := dpop b1 "loss_mask"
    let lossMask : Option V := lm.map (fun x => x.1)
    let b2 : Batch V := match lm with | some x => x.2 | none => b1
    let b4 := stepBatchShaping m.fwdParams b2
    match forward_kwargs b4 with
    | .error e => .error e
    | .ok outLogits =>
      let logits := outLogits.flatten
      let labels := labelsView labelsT
      if logits.length = labels.length then
        let loss := lossFn logits labels lossMask
        .ok { logs := [("val_loss", loss)], ret := none }
      else .error .assertionError

/-- Concrete model stub used to evaluate the two steps on one batch. -/
def demoModel : ModelStub ℕ :=
  { fwdParams := ["input_ids", "attention_mask"],
    logits := fun _ => [[[0, 1], [1, 0]]] }

/-- Concrete batch with an input_ids tensor and a labels tensor; tensors are
plain identifiers here. -/
def demoBatch : Batch ℕ := [("input_ids", 11), ("labels", 12)]

/-- labels.view(-1) for the concrete labels tensor: two target ids. -/
def demoLabelsView : ℕ → List ℤ := fun _ => [1, 0]

/-- Concrete injected loss function. -/
def demoLossFn : List (List ℚ) → List ℤ → Option ℕ → ℚ := fun _ _ _ => 37

theorem dlookup_nil {V : Type} (k : String) : dlookup ([] : Batch V) k = none := rfl

theorem dlookup_append {V : Type} (b1 b2 : Batch V) (k : String) :
    dlookup (b1 ++ b2) k = (dlookup b1 k).or (dlookup b2 k) := by
  induction b1 with
  | nil => simp [dlookup]
  | cons kv rest ih =>
    by_cases h : kv.1 = k <;> simp [dlookup, h, ih]

theorem dlookup_overwrite {V : Type} (b : Batch V) (k : String) (v : V) (k2 : String) :
    dlookup (b.map (fun kv => if kv.1 = k then (k, v) else kv)) k2 =
      if k2 = k then (if (dlookup b k).isSome then some v else none)
      else dlookup b k2 := by
  induction b with
  | nil => simp [dlookup]
  | cons kv rest ih =>
    by_cases h1 : kv.1 = k
    · by_cases h2 : k2 = k
      · subst h2; simp [dlookup, h1, ih]
      · have hne : kv.1 ≠ k2 := by rw [h1]; exact fun hk => h2 hk.symm
        have h2s : ¬ k = k2 := fun hk => h2 hk.symm
        simp [dlookup, h1, hne, ih, h2, h2s]
    · by_cases h3 : kv.1 = k2
      · have h2 : ¬ k2 = k := fun hk => h1 (h3.trans hk)
        simp [dlookup, h1, h3, h2]
      · simp [dlookup, h1, h3, ih]

theorem dlookup_dinsert {V : Type} (b : Batch V) (k : String) (v : V) (k2 : String) :
    dlookup (dinsert b k v) k2 = if k2 = k then some v else dlookup b k2 := by
  unfold dinsert
  by_cases hc : dcontains b k
  · rw [if_pos hc, dlookup_overwrite]
    unfold dcontains at hc
    by_cases h2 : k2 = k <;> simp [h2, hc]
  · rw [if_neg hc, dlookup_append]
    unfold dcontains at hc
    have hnone : dlookup b k = none := by
      cases h : dlookup b k with
      | none => rfl
      | some w => rw [h] at hc; simp at hc
    by_cases h2 : k2 = k
    · subst h2; simp [hnone, dlookup]
    · have h2s : ¬ k = k2 := fun hk => h2 hk.symm
      cases h : dlookup b k2 with
      | none => simp [h, dlookup, h2s, h2]
      | some w => simp [h, h2]

theorem dlookup_keepFold {V : Type} (b : Batch V) (ks : List String) (acc : Batch V) (k : String) :
    dlookup (ks.foldl (keepStep b) acc) k =
      if k ∈ ks ∧ (dlookup b k).isSome then dlookup b k else dlookup acc k := by
  induction ks generalizing acc with
  | nil => simp
  | cons k1 rest ih =>
    rw [List.foldl_cons, ih]
    have hstep : dlookup (keepStep b acc k1) k =
        if k = k1 ∧ (dlookup b k).isSome then dlookup b k else dlookup acc k := by
      unfold keepStep
      cases hb : dlookup b k1 with
      | none =>
        by_cases hkk : k = k1
        · subst hkk; simp [hb]
        · simp [hkk]
      | some v =>
        rw [dlookup_dinsert]
        by_cases hkk : k = k1
        · subst hkk; simp [hb]
        · simp [hkk]
    rw [hstep]
    by_cases h1 : k ∈ rest
    · by_cases h2 : (dlookup b k).isSome
      · simp [h1, h2, List.mem_cons]
      · simp [h1, h2]
    · by_cases h3 : k = k1
      · subst h3
        by_cases h2 : (dlookup b k).isSome <;> simp [h1, h2]
      · simp [h1, h3, List.mem_cons]

theorem zipWith_mul_replicate_one (l : List ℚ) (n : ℕ) (h : l.length = n) :
    List.zipWith (· * ·) l (List.replicate n (1 : ℚ)) = l := by
  induction l generalizing n with
  | nil => simp
  | cons a rest ih =>
    cases n with
    | zero => simp at h
    | succ m =>
      have hm : rest.length = m := by simpa using h
      simp [List.replicate_succ, ih m hm]

theorem zipWith_mul_replicate_zero_sum (l : List ℚ) (n : ℕ) :
    (List.zipWith (· * ·) l (List.replicate n (0 : ℚ))).sum = 0 := by
  induction l generalizing n with
  | nil => simp
  | cons a rest ih =>
    cases n with
    | zero => simp
    | succ m => simp [List.replicate_succ, ih m]

/-- Claim C1: with a mask present, masked_cross_entropy returns the sum of the
per-example cross entropies multiplied elementwise by the mask, divided by the
number N of examples: the denominator is always N, never the number of
nonzero mask entries. -/
theorem masked_ce_denominator_is_N
    (ceNone : List (List ℚ) → List ℤ → List ℚ)
    (logits : List (List ℚ)) (targets : List ℤ) (mask : List ℚ) (N : ℕ)
    (hce : (ceNone logits targets).length = N) (hm : mask.length = N) :
    masked_cross_entropy ceNone logits targets (some mask) =
      (List.zipWith (· * ·) (ceNone logits targets) mask).sum / (N : ℚ) := by
  show torchMean (List.zipWith (· * ·) (ceNone logits targets) mask) = _
  unfold torchMean
  rw [List.length_zipWith, hce, hm, min_self]

/-- Claim C1 witness: two examples with per-example losses 2 and 4 and mask
[1, 0] give (2 * 1 + 4 * 0) / 2 = 1, not the masked mean 2. -/
theorem masked_ce_denominator_is_N_witness :
    masked_cross_entropy (fun _ _ => [2, 4]) [[0], [0]] [0, 0] (some [1, 0]) = 1 := by
  have h := masked_ce_denominator_is_N (fun _ _ => [2, 4]) [[0], [0]] [0, 0] [1, 0] 2 rfl rfl
  rw [h]
  norm_num

/-- Claim C8: with an all-ones mask of matching length, masked_cross_entropy
equals masked_cross_entropy with no mask, the plain mean cross entropy; with
an all-zeros mask it equals 0. -/
theorem masked_ce_ones_and_zeros
    (ceNone : List (List ℚ) → List ℤ → List ℚ)
    (logits : List (List ℚ)) (targets : List ℤ) (N : ℕ) (_hN : 0 < N)
    (hce : (ceNone logits targets).length = N) :
    masked_cross_entropy ceNone logits targets (some (List.replicate N 1)) =
      masked_cross_entropy ceNone logits targets none ∧
    masked_cross_entropy ceNone logits targets (some (List.replicate N 0)) = 0 := by
  constructor
  · show torchMean (List.zipWith (· * ·) (ceNone logits targets) (List.replicate N 1)) =
      torchMean (ceNone logits targets)
    rw [zipWith_mul_replicate_one _ _ hce]
  · show torchMean (List.zipWith (· * ·) (ceNone logits targets) (List.replicate N 0)) = 0
    unfold torchMean
    rw [zipWith_mul_replicate_zero_sum]
    simp

/-- Claim C8 witness: per-example losses [3, 5] with the all-ones mask give
the plain mean 4 and with the all-zeros mask give 0. -/
theorem masked_ce_ones_and_zeros_witness :
    masked_cross_entropy (fun _ _ => [3, 5]) [[0], [0]] [0, 0] (some (List.replicate 2 1)) =
      masked_cross_entropy (fun _ _ => [3, 5]) [[0], [0]] [0, 0] none ∧
    masked_cross_entropy (fun _ _ => [3, 5]) [[0], [0]] [0, 0] (some (List.replicate 2 0)) = 0 :=
  masked_ce_ones_and_zeros (fun _ _ => [3, 5]) [[0], [0]] [0, 0] 2 (by decide) rfl

/-- Claim C4: with megatron_amp_O2 true the mapper returns bfloat16 exactly
for bf16 and bf16-mixed, float16 exactly for 16, "16" and 16-mixed, float32
exactly for 32, "32" and 32-true, and a ValueError naming the input for
everything else; with megatron_amp_O2 false it returns float32 for every
input and never raises. -/
theorem torch_dtype_characterization (p : Precision) :
    torch_dtype_from_precision p false = .ok .float32 ∧
    (torch_dtype_from_precision p true = .ok .bfloat16 ↔
      (p = .pStr "bf16" ∨ p = .pStr "bf16-mixed")) ∧
    (torch_dtype_from_precision p true = .ok .float16 ↔
      (p = .pInt 16 ∨ p = .pStr "16" ∨ p = .pStr "16-mixed")) ∧
    (torch_dtype_from_precision p true = .ok .float32 ↔
      (p = .pInt 32 ∨ p = .pStr "32" ∨ p = .pStr "32-true")) ∧
    (¬(p = .pStr "bf16" ∨ p = .pStr "bf16-mixed") →
      ¬(p = .pInt 16 ∨ p = .pStr "16" ∨ p = .pStr "16-mixed") →
      ¬(p = .pInt 32 ∨ p = .pStr "32" ∨ p = .pStr "32-true") →
      torch_dtype_from_precision p true =
        .error ("Could not parse the precision of " ++ precisionRepr p ++
          " to a valid torch.dtype")) := by
  by_cases h1 : p = Precision.pStr "bf16" ∨ p = Precision.pStr "bf16-mixed"
  · rcases h1 with h | h <;> subst h <;> decide
  by_cases h2 : p = Precision.pInt 16 ∨ p = Precision.pStr "16" ∨ p = Precision.pStr "16-mixed"
  · rcases h2 with h | h | h <;> subst h <;> decide
  by_cases h3 : p = Precision.pInt 32 ∨ p = Precision.pStr "32" ∨ p = Precision.pStr "32-true"
  · rcases h3 with h | h | h <;> subst h <;> decide
  have he : torch_dtype_from_precision p true =
      .error ("Could not parse the precision of " ++ precisionRepr p ++
        " to a valid torch.dtype") := by
    unfold torch_dtype_from_precision
    rw [if_neg (by simp), if_neg (by simpa using h1), if_neg (by simpa using h2),
      if_neg (by simpa using h3)]
  refine ⟨rfl, ?_, ?_, ?_, fun _ _ _ => he⟩
  · rw [he]; simp [h1]
  · rw [he]; simp [h2]
  · rw [he]; simp [h3]

/-- Claim C4 witness: the unrecognized identifier tf32 raises the ValueError
under megatron_amp_O2 true and maps to float32 under megatron_amp_O2 false. -/
theorem torch_dtype_characterization_witness :
    torch_dtype_from_precision (Precision.pStr "tf32") true =
      .error ("Could not parse the precision of " ++ precisionRepr (Precision.pStr "tf32") ++
        " to a valid torch.dtype") ∧
    torch_dtype_from_precision (Precision.pStr "tf32") false = .ok .float32 :=
  ⟨(torch_dtype_characterization (Precision.pStr "tf32")).2.2.2.2
      (by decide) (by decide) (by decide),
    (torch_dtype_characterization (Precision.pStr "tf32")).1⟩

/-- Claim C5: is_nemo2_checkpoint is true exactly when the entry context
directly under the path exists and is a directory; it is false when that
entry is a regular file and when there is no such entry. -/
theorem is_nemo2_checkpoint_iff (fs : FileSystem) (p : List String) :
    (is_nemo2_checkpoint fs p = true ↔
      fsLookup fs (p ++ ["context"]) = some FileType.directory) ∧
    (fsLookup fs (p ++ ["context"]) = some FileType.regular →
      is_nemo2_checkpoint fs p = false) ∧
    (fsLookup fs (p ++ ["context"]) = none → is_nemo2_checkpoint fs p = false) := by
  unfold is_nemo2_checkpoint path_is_dir pathStat
  cases h : fsLookup fs (p ++ ["context"]) with
  | none => simp [h]
  | some t => cases t <;> simp [h]

/-- Claim C5 witness: a context directory is recognized, a regular file named
context is not, and an empty filesystem is not. -/
theorem is_nemo2_checkpoint_iff_witness :
    is_nemo2_checkpoint [(["ckpt", "context"], FileType.directory)] ["ckpt"] = true ∧
    is_nemo2_checkpoint [(["ckpt", "context"], FileType.regular)] ["ckpt"] = false ∧
    is_nemo2_checkpoint ([] : FileSystem) ["ckpt"] = false :=
  ⟨(is_nemo2_checkpoint_iff [(["ckpt", "context"], FileType.directory)] ["ckpt"]).1.mpr
      (by decide),
    (is_nemo2_checkpoint_iff [(["ckpt", "context"], FileType.regular)] ["ckpt"]).2.1
      (by decide),
    (is_nemo2_checkpoint_iff ([] : FileSystem) ["ckpt"]).2.2 rfl⟩

/-- Claim C10: is_nemo2_checkpoint is total: when stat on path/context raises
FileNotFoundError because nothing exists there, the error is caught inside
is_dir and the function still returns the boolean false instead of
propagating the error. -/
theorem is_nemo2_checkpoint_total_on_missing (fs : FileSystem) (p : List String)
    (h : pathStat fs (p ++ ["context"]) = .error "FileNotFoundError") :
    is_nemo2_checkpoint fs p = false := by
  unfold is_nemo2_checkpoint path_is_dir
  rw [h]

/-- Claim C10 witness: on the empty filesystem, where the path does not exist
at all, the predicate returns false. -/
theorem is_nemo2_checkpoint_total_on_missing_witness :
    is_nemo2_checkpoint ([] : FileSystem) ["no", "such", "path"] = false :=
  is_nemo2_checkpoint_total_on_missing ([] : FileSystem) ["no", "such", "path"] rfl

/-- Claim C9: the tokenizer field is write-once: the setter succeeds and
stores the value exactly when no tokenizer has been assigned yet, and raises
the AssertionError exactly when one has. -/
theorem tokenizer_set_write_once {Tok : Type} (st : AdapterTokState Tok) (v : Tok) :
    (tokenizer_set st v = .ok { st with _tokenizer := some v } ↔ st._tokenizer = none) ∧
    (tokenizer_set st v = .error "AssertionError" ↔ st._tokenizer ≠ none) := by
  cases st with
  | mk tk trc mn =>
    cases tk <;> simp [tokenizer_set]

/-- Claim C3 (code bug): the tokenizer property passes self.trust_remote_code
positionally into the use_fast parameter of configure_tokenizer, so the
AutoTokenizer is always constructed with trust_remote_code false, and with an
adapter flag of false the first attempt is the slow tokenizer.  With a stub
constructor that records its flags: an adapter with trust_remote_code true
gets a tokenizer built with (use_fast, trust_remote_code) = (true, false),
and one with trust_remote_code false gets (false, false). -/
theorem tokenizer_get_drops_trust_flag :
    tokenizer_get attemptFlags
        { _tokenizer := none, trust_remote_code := true, model_name := "gpt2" } =
      .ok ((true, false),
        { _tokenizer := some (true, false), trust_remote_code := true,
          model_name := "gpt2" }) ∧
    tokenizer_get attemptFlags
        { _tokenizer := none, trust_remote_code := false, model_name := "gpt2" } =
      .ok ((false, false),
        { _tokenizer := some (false, false), trust_remote_code := false,
          model_name := "gpt2" }) :=
  ⟨rfl, rfl⟩

/-- Claim C2 (code bug): on one and the same batch the training step returns
a logged loss while the validation step raises a TypeError before any forward
pass, because validation_step invokes self.forward(**batch) although the only
parameter of forward is named batch. -/
theorem validation_step_type_error :
    training_step demoModel demoLabelsView demoLossFn demoBatch =
      .ok { logs := [("train_loss", 37)], ret := some 37 } ∧
    validation_step demoModel demoLabelsView demoLossFn demoBatch =
      .error (.typeError "forward() got an unexpected keyword argument input_ids") := by
  constructor <;> rfl

/-- Claim C6: a batch with a tokens field and no input_ids field is shaped for
the forward call exactly like the same batch extended with an input_ids field
holding the tokens value, and the shim indeed stores the tokens value under
input_ids; a batch that already has input_ids is left unchanged by the shim. -/
theorem tokens_alias_spec {V : Type} (fwdParams : List String) (b : Batch V) :
    (∀ t, dlookup b "tokens" = some t → dlookup b "input_ids" = none →
      stepBatchShaping fwdParams b = stepBatchShaping fwdParams (dinsert b "input_ids" t) ∧
      dlookup (aliasTokens b) "input_ids" = some t) ∧
    (∀ v, dlookup b "input_ids" = some v → aliasTokens b = b) := by
  constructor
  · intro t ht hi
    have h1 : aliasTokens b = dinsert b "input_ids" t := by
      unfold aliasTokens
      rw [hi, ht]
    have h2 : aliasTokens (dinsert b "input_ids" t) = dinsert b "input_ids" t := by
      unfold aliasTokens
      rw [dlookup_dinsert]
      simp
    constructor
    · unfold stepBatchShaping
      rw [h1, h2]
    · rw [h1, dlookup_dinsert]
      simp
  · intro v hv
    unfold aliasTokens
    rw [hv]

/-- Claim C6 witness: the concrete batch holding only a tokens tensor is
shaped identically to the batch extended with input_ids, the shim exposes the
tokens value under input_ids, and a batch already holding input_ids is not
rewritten. -/
theorem tokens_alias_spec_witness :
    stepBatchShaping ["input_ids"] [("tokens", (5 : ℕ))] =
      stepBatchShaping ["input_ids"] (dinsert [("tokens", (5 : ℕ))] "input_ids" 5) ∧
    dlookup (aliasTokens [("tokens", (5 : ℕ))]) "input_ids" = some 5 ∧
    aliasTokens [("input_ids", (7 : ℕ))] = [("input_ids", (7 : ℕ))] :=
  ⟨((tokens_alias_spec ["input_ids"] [("tokens", 5)]).1 5 rfl rfl).1,
    ((tokens_alias_spec ["input_ids"] [("tokens", 5)]).1 5 rfl rfl).2,
    (tokens_alias_spec ["input_ids"] [("input_ids", 7)]).2 7 rfl⟩

/-- Claim C7: the filtered batch passed to the model forward holds exactly
the keys that are forward-signature parameters or reserved labels and
loss_mask keys and that occur in the batch, each with an unchanged value;
every other key reads as absent, and no key is added. -/
theorem remove_extra_batch_keys_spec {V : Type} (fwdParams : List String)
    (b : Batch V) (k : String) :
    dlookup (_remove_extra_batch_keys fwdParams b) k =
      if k ∈ fwdParams ++ ["labels", "loss_mask"] then dlookup b k else none := by
  unfold _remove_extra_batch_keys
  rw [dlookup_keepFold]
  by_cases hmem : k ∈ fwdParams ++ ["labels", "loss_mask"]
  · by_cases hsome : (dlookup b k).isSome
    · simp [hmem, hsome]
    · have : dlookup b k = none := Option.not_isSome_iff_eq_none.mp hsome
      simp [hmem, hsome, this, dlookup]
  · simp [hmem, dlookup]
